import Mathlib

set_option maxRecDepth 4096

/-!
Verification of the IATA BCBP (Bar Coded Boarding Pass) Type-M decoder.

The repository contains several generations of the decoder:
* `src/de/parser.rs` — the nom-combinator based decoder (used by the
  integration tests through `Bcbp::from_str`), embedded below in
  namespace `DE`;
* `src/parser.rs` + `src/scanner.rs` — the scanner-based decoder with the
  `BcbpParserError` taxonomy (`NoLegs`, `InvalidConditionalItemList`,
  `InvalidStartOfVersionNumber`, ...), embedded below in namespace `PR`.

Input strings are embedded as `List Char`; a Rust `&str` slice is
represented by the list of its characters (all inputs of interest are
ASCII, where bytes and characters coincide).
-/

/-- `u8/char::is_ascii`: the character's code point is at most 127. -/
def asciiChar (c : Char) : Bool := c.toNat ≤ 127

/-- Value of one digit character as in Rust's `char::to_digit`. -/
def digitValue (c : Char) : Option Nat :=
  if c.isDigit then some (c.toNat - '0'.toNat)
  else if 'a' ≤ c ∧ c ≤ 'z' then some (c.toNat - 'a'.toNat + 10)
  else if 'A' ≤ c ∧ c ≤ 'Z' then some (c.toNat - 'A'.toNat + 10)
  else none

/-- A digit character constrained to the given radix. -/
def radixDigit (radix : Nat) (c : Char) : Option Nat :=
  match digitValue c with
  | some v => if v < radix then some v else none
  | none => none

/-- Rust `uN::from_str_radix`: an optional leading `+` sign followed by one
or more digits of the radix.  Overflow is not modelled: every use site in the
source parses at most two digits into a `u8`/`u64`/`usize`, which cannot
overflow. -/
def from_str_radix (radix : Nat) (s : List Char) : Option Nat :=
  let ds := match s with
    | '+' :: rest => rest
    | _ => s
  if ds.isEmpty then none
  else ds.foldl (fun acc c =>
    match acc, radixDigit radix c with
    | some a, some d => some (a * radix + d)
    | _, _ => none) (some 0)

/-- `src/de/field.rs` `DataFormat`: the character-class rule of a field. -/
inductive DataFormat where
  | arbitrary
  | iataAlphaNumerical
  | iataNumerical
  | iataAlphabetical
  | flightNumber
deriving DecidableEq

/-- Membership of one character in a (character-wise) format class. -/
def DataFormat.checkChar : DataFormat → Char → Bool
  | .arbitrary, c => (0x20 ≤ c.toNat && c.toNat ≤ 0x7e) || c.toNat = 9 || c.toNat = 10 || c.toNat = 13
  | .iataAlphaNumerical, c => asciiChar c
  | .iataNumerical, c => c.isDigit
  | .iataAlphabetical, c => 'A' ≤ c && c ≤ 'Z'
  | .flightNumber, _ => false

/-- A whole field value against its format.  The composite `flightNumber`
shape is `NNNN[a]`: four digits followed by one letter or space. -/
def DataFormat.check : DataFormat → List Char → Bool
  | .flightNumber, s =>
      s.length = 5 && (s.take 4).all Char.isDigit
        && (s.drop 4).all (fun c => ('A' ≤ c && c ≤ 'Z') || c = ' ')
  | fmt, s => s.all fmt.checkChar

/-- `src/de/field.rs` `Field`: the field catalog (named `FieldId` here since `Field` is taken by Mathlib). -/
inductive FieldId where
  | formatCode
  | airlineIndividualUse
  | numberOfLegsEncoded
  | fieldSizeOfVariableSizeField
  | operatingCarrierPnrCode
  | beginningOfVersionNumber
  | versionNumber
  | fieldSizeOfStructuredMessageUnique
  | passengerName
  | sourceOfCheckIn
  | sourceOfBoardingPassIssuance
  | passengerDescription
  | documentType
  | fieldSizeOfStructuredMessageRepeated
  | selecteeIndicator
  | marketingCarrierDesignator
  | frequentFlyerAirlineDesignator
  | airlineDesignatorOfBoardingPassIssuer
  | dateOfIssueOfBoardingPass
  | baggageTagLicensePlateNumbers
  | beginningOfSecurityData
  | fromCityAirportCode
  | typeOfSecurityData
  | lengthOfSecurityData
  | securityData
  | firstNonConsecutiveBaggageTagLicensePlateNumber
  | secondNonConsecutiveBaggageTagLicensePlateNumber
  | toCityAirportCode
  | operatingCarrierDesignator
  | flightNumber
  | dateOfFlight
  | compartmentCode
  | idAdIndicator
  | seatNumber
  | checkInSequenceNumber
  | internationalDocumentVerification
  | passengerStatus
  | freeBaggageAllowance
  | airlineNumericCode
  | documentFormSerialNumber
  | frequentFlyerNumber
  | electronicTicketIndicator
  | fastTrack
deriving DecidableEq

/-- `Field::len`: the required length of the field (0 = variable length). -/
def FieldId.len : FieldId → Nat
  | .formatCode => 1
  | .airlineIndividualUse => 0
  | .numberOfLegsEncoded => 1
  | .fieldSizeOfVariableSizeField => 2
  | .operatingCarrierPnrCode => 7
  | .beginningOfVersionNumber => 1
  | .versionNumber => 1
  | .fieldSizeOfStructuredMessageUnique => 2
  | .passengerName => 20
  | .sourceOfCheckIn => 1
  | .sourceOfBoardingPassIssuance => 1
  | .passengerDescription => 1
  | .documentType => 1
  | .fieldSizeOfStructuredMessageRepeated => 2
  | .selecteeIndicator => 1
  | .marketingCarrierDesignator => 3
  | .frequentFlyerAirlineDesignator => 3
  | .airlineDesignatorOfBoardingPassIssuer => 3
  | .dateOfIssueOfBoardingPass => 4
  | .baggageTagLicensePlateNumbers => 13
  | .beginningOfSecurityData => 1
  | .fromCityAirportCode => 3
  | .typeOfSecurityData => 1
  | .lengthOfSecurityData => 2
  | .securityData => 0
  | .firstNonConsecutiveBaggageTagLicensePlateNumber => 13
  | .secondNonConsecutiveBaggageTagLicensePlateNumber => 13
  | .toCityAirportCode => 3
  | .operatingCarrierDesignator => 3
  | .flightNumber => 5
  | .dateOfFlight => 3
  | .compartmentCode => 1
  | .idAdIndicator => 1
  | .seatNumber => 4
  | .checkInSequenceNumber => 5
  | .internationalDocumentVerification => 1
  | .passengerStatus => 1
  | .freeBaggageAllowance => 3
  | .airlineNumericCode => 3
  | .documentFormSerialNumber => 10
  | .frequentFlyerNumber => 16
  | .electronicTicketIndicator => 1
  | .fastTrack => 1

/-- `Field::name`: the display name used as parsing context. -/
def FieldId.name : FieldId → String
  | .formatCode => "Format Code"
  | .airlineIndividualUse => "Airline Individual Use"
  | .numberOfLegsEncoded => "Number of Legs Encoded"
  | .fieldSizeOfVariableSizeField => "Field Size of Variable Size Field"
  | .operatingCarrierPnrCode => "Operating Carrier PNR Code"
  | .beginningOfVersionNumber => "Beginning of Version Number"
  | .versionNumber => "Version Number"
  | .fieldSizeOfStructuredMessageUnique => "Field Size of Strutured Message (Unique)"
  | .passengerName => "Passenger Name"
  | .sourceOfCheckIn => "Source of Check-In"
  | .sourceOfBoardingPassIssuance => "Source of Boarding Pass Issuance"
  | .passengerDescription => "Passenger Description"
  | .documentType => "Document Type"
  | .fieldSizeOfStructuredMessageRepeated => "Field Size of Strutured Message (Repeated)"
  | .selecteeIndicator => "Selectee Indicator"
  | .marketingCarrierDesignator => "Marketing Carrier Designator"
  | .frequentFlyerAirlineDesignator => "Frequent Flyer Airline Designator"
  | .airlineDesignatorOfBoardingPassIssuer => "Airline Designator of Boarding Pass Issuer"
  | .dateOfIssueOfBoardingPass => "Date of Issue of Boarding Pass"
  | .baggageTagLicensePlateNumbers => "Baggage Tag License Plate Number(s)"
  | .beginningOfSecurityData => "Beginning of Security Data"
  | .fromCityAirportCode => "From City Airport Code"
  | .typeOfSecurityData => "Type of Security Data"
  | .lengthOfSecurityData => "Length of Security Data"
  | .securityData => "Security Data"
  | .firstNonConsecutiveBaggageTagLicensePlateNumber => "First Non-Consecutive Baggage Tag License Plate Number"
  | .secondNonConsecutiveBaggageTagLicensePlateNumber => "Second Non-Consecutive Baggage Tag License Plate Number"
  | .toCityAirportCode => "To City Airport Code"
  | .operatingCarrierDesignator => "Operating Carrier Designator"
  | .flightNumber => "Flight Number"
  | .dateOfFlight => "Date of Flight"
  | .compartmentCode => "Compartment Code"
  | .idAdIndicator => "ID/AD Indicator"
  | .seatNumber => "Seat Number"
  | .checkInSequenceNumber => "Check-In Sequence Number"
  | .internationalDocumentVerification => "International Document Verification"
  | .passengerStatus => "Passenger Status"
  | .freeBaggageAllowance => "Free Baggage Allowance"
  | .airlineNumericCode => "Airline Numeric Code"
  | .documentFormSerialNumber => "Document Form / Serial Number"
  | .frequentFlyerNumber => "Frequent Flyer Number"
  | .electronicTicketIndicator => "Electronic Ticket Indicator"
  | .fastTrack => "Fast Track"

/-- `Field::data_format`: the validation class of each field. -/
def FieldId.data_format : FieldId → DataFormat
  | .formatCode => .iataAlphaNumerical
  | .airlineIndividualUse => .arbitrary
  | .numberOfLegsEncoded => .iataNumerical
  | .fieldSizeOfVariableSizeField => .iataAlphaNumerical
  | .operatingCarrierPnrCode => .iataAlphaNumerical
  | .beginningOfVersionNumber => .iataAlphaNumerical
  | .versionNumber => .iataAlphaNumerical
  | .fieldSizeOfStructuredMessageUnique => .iataAlphaNumerical
  | .passengerName => .iataAlphaNumerical
  | .sourceOfCheckIn => .iataAlphaNumerical
  | .sourceOfBoardingPassIssuance => .iataAlphaNumerical
  | .passengerDescription => .iataAlphaNumerical
  | .documentType => .iataAlphaNumerical
  | .fieldSizeOfStructuredMessageRepeated => .iataAlphaNumerical
  | .selecteeIndicator => .iataAlphaNumerical
  | .marketingCarrierDesignator => .iataAlphaNumerical
  | .frequentFlyerAirlineDesignator => .iataAlphaNumerical
  | .airlineDesignatorOfBoardingPassIssuer => .iataAlphaNumerical
  | .dateOfIssueOfBoardingPass => .iataNumerical
  | .baggageTagLicensePlateNumbers => .iataAlphaNumerical
  | .beginningOfSecurityData => .iataAlphaNumerical
  | .fromCityAirportCode => .iataAlphabetical
  | .typeOfSecurityData => .iataAlphaNumerical
  | .lengthOfSecurityData => .iataAlphaNumerical
  | .securityData => .arbitrary
  | .firstNonConsecutiveBaggageTagLicensePlateNumber => .iataAlphaNumerical
  | .secondNonConsecutiveBaggageTagLicensePlateNumber => .iataAlphaNumerical
  | .toCityAirportCode => .iataAlphabetical
  | .operatingCarrierDesignator => .iataAlphaNumerical
  | .flightNumber => .flightNumber
  | .dateOfFlight => .iataNumerical
  | .compartmentCode => .iataAlphabetical
  | .idAdIndicator => .iataAlphaNumerical
  | .seatNumber => .iataAlphaNumerical
  | .checkInSequenceNumber => .iataAlphaNumerical
  | .internationalDocumentVerification => .iataAlphaNumerical
  | .passengerStatus => .iataAlphaNumerical
  | .freeBaggageAllowance => .iataAlphaNumerical
  | .airlineNumericCode => .iataNumerical
  | .documentFormSerialNumber => .iataAlphaNumerical
  | .frequentFlyerNumber => .iataAlphaNumerical
  | .electronicTicketIndicator => .iataAlphaNumerical
  | .fastTrack => .iataAlphaNumerical

namespace DE

/-!
Embedding of `src/de/parser.rs`, the nom-combinator based decoder.

nom's `IResult<&str, T, VerboseError<&str>>` is embedded as
`Except NomErr (List Char × T)`; `.ok (rest, value)` is nom's
`Ok((remainder, value))`.  All sub-parsers used by the source are the
*complete* variants (`bytes::complete::take`, `take_while_m_n`,
`character::complete::char`, `anychar`), which signal insufficient input
as `Err::Error` — never as `Err::Incomplete`.  The `VerboseError` trace is
kept as a list of `(input, kind)` pairs; the `convert_error` string
rendering is not modelled (no claim depends on the rendered text, only on
which variant of the public error is produced).
-/

/-- The subset of nom `ErrorKind`s producible by the parsers used here. -/
inductive ErrKind where
  | eof
  | takeWhileMN
  | mapRes
deriving DecidableEq

/-- nom `VerboseErrorKind`. -/
inductive VerboseKind where
  | char (c : Char)
  | context (ctx : String)
  | nomKind (k : ErrKind)
deriving DecidableEq

/-- nom `VerboseError`: the accumulated `(input, kind)` trace. -/
abbrev Trace := List (List Char × VerboseKind)

/-- nom `Err`: error (recoverable), failure (unrecoverable), incomplete. -/
inductive NomErr where
  | error (e : Trace)
  | failure (e : Trace)
  | incomplete
deriving DecidableEq

/-- nom `IResult<&str, T>`. -/
abbrev IR (α : Type) := Except NomErr (List Char × α)

/-- Sequencing of `IResult`s (the `?` operator on nom results). -/
def irBind {α β : Type} : IR α → (List Char → α → IR β) → IR β
  | .error e, _ => .error e
  | .ok (i, a), f => f i a

/-- nom `context(name, parser)`: tags an error with the failing context. -/
def withContext {α : Type} (ctx : String) (i : List Char) (r : IR α) : IR α :=
  match r with
  | .error (.error e) => .error (.error (e ++ [(i, .context ctx)]))
  | .error (.failure e) => .error (.failure (e ++ [(i, .context ctx)]))
  | other => other

/-- nom `character::complete::char(c)`. -/
def pChar (c : Char) (i : List Char) : IR Char :=
  match i with
  | x :: xs => if x = c then .ok (xs, x) else .error (.error [(i, .char c)])
  | [] => .error (.error [(i, .char c)])

/-- nom `character::complete::anychar`. -/
def pAnyChar (i : List Char) : IR Char :=
  match i with
  | x :: xs => .ok (xs, x)
  | [] => .error (.error [(i, .nomKind .eof)])

/-- nom `bytes::complete::take(n)`. -/
def pTake (n : Nat) (i : List Char) : IR (List Char) :=
  if n ≤ i.length then .ok (i.drop n, i.take n)
  else .error (.error [(i, .nomKind .eof)])

/-- nom `bytes::complete::take_while_m_n(m, m, pred)` as used by the source
(minimum and maximum counts are always equal). -/
def pTakeWhileMN (m : Nat) (pred : Char → Bool) (i : List Char) : IR (List Char) :=
  if m ≤ i.length ∧ (i.take m).all pred then .ok (i.drop m, i.take m)
  else .error (.error [(i, .nomKind .takeWhileMN)])

/-- `is_ascii_uppercase_hexdigit`: ASCII hex digit that is not lowercase. -/
def is_ascii_uppercase_hexdigit (c : Char) : Bool :=
  c.isDigit || ('A' ≤ c && c ≤ 'F')

/-- `hex_byte_literal`: a 1- or 2-digit uppercase hexadecimal literal.
`u8::from_str_radix` on a validated 1–2 digit string cannot overflow; the
`map_res` failure branch is kept for fidelity. -/
def hex_byte_literal (length : Nat) (i : List Char) : IR Nat :=
  irBind (pTakeWhileMN length is_ascii_uppercase_hexdigit i) fun rest s =>
    match from_str_radix 16 s with
    | some v => .ok (rest, v)
    | none => .error (.error [(i, .nomKind .mapRes)])

/-- `variable_size_field_data`: a 2-hex-digit length prefix followed by
exactly that many bytes of section data. -/
def variable_size_field_data (field_id : FieldId) (i : List Char) : IR (List Char) :=
  irBind (withContext field_id.name i (hex_byte_literal 2 i)) fun remainder length =>
    if length = 0 then .ok (remainder, [])
    else pTake length remainder

/-- `optional_variable_size_field_data`: as above, or empty at end of input. -/
def optional_variable_size_field_data (field_id : FieldId) (i : List Char) : IR (List Char) :=
  if i.length = 0 then .ok (i, i)
  else variable_size_field_data field_id i

/-- `number_of_legs`: a single (hexadecimal!) digit. -/
def number_of_legs (i : List Char) : IR Nat :=
  withContext FieldId.numberOfLegsEncoded.name i (hex_byte_literal 1 i)

/-- `format_code_m`: the literal `M` format specifier. -/
def format_code_m (i : List Char) : IR Char :=
  withContext FieldId.formatCode.name i (pChar 'M' i)

/-- `string_field`: a fixed-length string field.  `ArrayString::from` fails
exactly when the UTF-8 byte length exceeds the capacity `field_id.len`,
i.e. when some of the taken characters is non-ASCII. -/
def string_field (field_id : FieldId) (i : List Char) : IR String :=
  withContext field_id.name i
    (irBind (pTake field_id.len i) fun rest s =>
      if s.all asciiChar then .ok (rest, String.mk s)
      else .error (.error [(i, .nomKind .mapRes)]))

/-- `optional_string_field`: `none` at end of input, otherwise mandatory. -/
def optional_string_field (field_id : FieldId) (i : List Char) : IR (Option String) :=
  if i.length = 0 then .ok (i, none)
  else irBind (string_field field_id i) fun rest v => .ok (rest, some v)

/-- `character_field`: a single-character field. -/
def character_field (field_id : FieldId) (i : List Char) : IR Char :=
  withContext field_id.name i (pAnyChar i)

/-- `optional_character_field`: `none` at end of input, otherwise mandatory. -/
def optional_character_field (field_id : FieldId) (i : List Char) : IR (Option Char) :=
  if i.length = 0 then .ok (i, none)
  else irBind (character_field field_id i) fun rest v => .ok (rest, some v)

/-- `optional_version_number`: the `>` chevron and version character. -/
def optional_version_number (i : List Char) : IR (Option Char) :=
  if i.length = 0 then .ok (i, none)
  else
    irBind (withContext FieldId.beginningOfVersionNumber.name i (pChar '>' i)) fun i1 _ =>
      optional_character_field FieldId.versionNumber i1

/-- `bcbp::ConditionalMetadata`. -/
structure ConditionalMetadata where
  version_number : Option Char := none
  passenger_description : Option Char := none
  source_of_check_in : Option Char := none
  source_of_boarding_pass_issuance : Option Char := none
  date_of_issue_of_boarding_pass : Option String := none
  document_type : Option Char := none
  airline_designator_of_boarding_pass_issuer : Option String := none
  baggage_tag_license_plate_numbers : Option String := none
  first_non_consecutive_baggage_tag_license_plate_numbers : Option String := none
  second_non_consecutive_baggage_tag_license_plate_numbers : Option String := none
deriving DecidableEq

instance : Inhabited ConditionalMetadata := ⟨{}⟩

/-- `bcbp::Leg`. -/
structure Leg where
  operating_carrier_pnr_code : String
  from_city_airport_code : String
  to_city_airport_code : String
  operating_carrier_designator : String
  flight_number : String
  date_of_flight : String
  compartment_code : Char
  seat_number : String
  check_in_sequence_number : String
  passenger_status : Char
  airline_numeric_code : Option String := none
  document_form_serial_number : Option String := none
  selectee_indicator : Option Char := none
  international_document_verification : Option Char := none
  marketing_carrier_designator : Option String := none
  frequent_flyer_airline_designator : Option String := none
  frequent_flyer_number : Option String := none
  id_ad_indicator : Option Char := none
  free_baggage_allowance : Option String := none
  fast_track : Option Char := none
  airline_individual_use : Option String := none
deriving DecidableEq

/-- `bcbp::SecurityData`. -/
structure SecurityData where
  type_of_security_data : Option Char := none
  security_data : Option String := none
deriving DecidableEq

instance : Inhabited SecurityData := ⟨{}⟩

/-- `bcbp::Bcbp`. -/
structure Bcbp where
  passenger_name : String
  electronic_ticket_indicator : Char
  metadata : ConditionalMetadata
  legs : List Leg
  security_data : SecurityData
deriving DecidableEq

/-- `conditional_metadata`: pass-level data embedded in the first leg. -/
def conditional_metadata (i : List Char) : IR ConditionalMetadata :=
  irBind (optional_version_number i) fun i1 version_number =>
  irBind (optional_variable_size_field_data .fieldSizeOfStructuredMessageUnique i1) fun remainder cid0 =>
  irBind (optional_character_field .passengerStatus cid0) fun cid1 passenger_description =>
  irBind (optional_character_field .sourceOfCheckIn cid1) fun cid2 source_of_check_in =>
  irBind (optional_character_field .sourceOfBoardingPassIssuance cid2) fun cid3 source_of_boarding_pass_issuance =>
  irBind (optional_string_field .dateOfIssueOfBoardingPass cid3) fun cid4 date_of_issue_of_boarding_pass =>
  irBind (optional_character_field .documentType cid4) fun cid5 document_type =>
  irBind (optional_string_field .airlineDesignatorOfBoardingPassIssuer cid5) fun cid6 airline_designator_of_boarding_pass_issuer =>
  irBind (optional_string_field .baggageTagLicensePlateNumbers cid6) fun cid7 baggage_tag_license_plate_numbers =>
  irBind (optional_string_field .firstNonConsecutiveBaggageTagLicensePlateNumber cid7) fun cid8 first_ncbt =>
  irBind (optional_string_field .secondNonConsecutiveBaggageTagLicensePlateNumber cid8) fun _ second_ncbt =>
  .ok (remainder,
    { version_number, passenger_description, source_of_check_in,
      source_of_boarding_pass_issuance, date_of_issue_of_boarding_pass,
      document_type, airline_designator_of_boarding_pass_issuer,
      baggage_tag_license_plate_numbers,
      first_non_consecutive_baggage_tag_license_plate_numbers := first_ncbt,
      second_non_consecutive_baggage_tag_license_plate_numbers := second_ncbt })

/-- The ten mandatory leg fields, in wire order. -/
structure LegMandatory where
  operating_carrier_pnr_code : String
  from_city_airport_code : String
  to_city_airport_code : String
  operating_carrier_designator : String
  flight_number : String
  date_of_flight : String
  compartment_code : Char
  seat_number : String
  check_in_sequence_number : String
  passenger_status : Char
deriving DecidableEq

/-- Mandatory part of `leg`: the ten required items common to all legs. -/
def leg_mandatory (i : List Char) : IR LegMandatory :=
  irBind (string_field .operatingCarrierPnrCode i) fun i1 operating_carrier_pnr_code =>
  irBind (string_field .fromCityAirportCode i1) fun i2 from_city_airport_code =>
  irBind (string_field .toCityAirportCode i2) fun i3 to_city_airport_code =>
  irBind (string_field .operatingCarrierDesignator i3) fun i4 operating_carrier_designator =>
  irBind (string_field .flightNumber i4) fun i5 flight_number =>
  irBind (string_field .dateOfFlight i5) fun i6 date_of_flight =>
  irBind (character_field .compartmentCode i6) fun i7 compartment_code =>
  irBind (string_field .seatNumber i7) fun i8 seat_number =>
  irBind (string_field .checkInSequenceNumber i8) fun i9 check_in_sequence_number =>
  irBind (character_field .passengerStatus i9) fun i10 passenger_status =>
  .ok (i10,
    { operating_carrier_pnr_code, from_city_airport_code, to_city_airport_code,
      operating_carrier_designator, flight_number, date_of_flight,
      compartment_code, seat_number, check_in_sequence_number, passenger_status })

/-- The optional per-leg items read from the repeated structured section,
together with the airline-individual-use remainder of the leg section. -/
structure LegConditional where
  airline_numeric_code : Option String := none
  document_form_serial_number : Option String := none
  selectee_indicator : Option Char := none
  international_document_verification : Option Char := none
  marketing_carrier_designator : Option String := none
  frequent_flyer_airline_designator : Option String := none
  frequent_flyer_number : Option String := none
  id_ad_indicator : Option Char := none
  free_baggage_allowance : Option String := none
  fast_track : Option Char := none
  airline_individual_use : Option String := none
deriving DecidableEq

/-- Tail of `leg`: the repeated structured section and airline use.  The
leg's own remaining input is the text after the outer conditional section,
so this part returns no rest. -/
def leg_conditional (cid : List Char) : Except NomErr LegConditional :=
  match
    irBind (optional_variable_size_field_data .fieldSizeOfStructuredMessageRepeated cid) fun individual_use_data cid0 =>
    irBind (optional_string_field .airlineNumericCode cid0) fun cid1 airline_numeric_code =>
    irBind (optional_string_field .documentFormSerialNumber cid1) fun cid2 document_form_serial_number =>
    irBind (optional_character_field .selecteeIndicator cid2) fun cid3 selectee_indicator =>
    irBind (optional_character_field .internationalDocumentVerification cid3) fun cid4 international_document_verification =>
    irBind (optional_string_field .marketingCarrierDesignator cid4) fun cid5 marketing_carrier_designator =>
    irBind (optional_string_field .frequentFlyerAirlineDesignator cid5) fun cid6 frequent_flyer_airline_designator =>
    irBind (optional_string_field .frequentFlyerNumber cid6) fun cid7 frequent_flyer_number =>
    irBind (optional_character_field .idAdIndicator cid7) fun cid8 id_ad_indicator =>
    irBind (optional_string_field .freeBaggageAllowance cid8) fun cid9 free_baggage_allowance =>
    irBind (optional_character_field .fastTrack cid9) fun _ fast_track =>
    .ok (individual_use_data,
      ({ airline_numeric_code, document_form_serial_number, selectee_indicator,
         international_document_verification, marketing_carrier_designator,
         frequent_flyer_airline_designator, frequent_flyer_number,
         id_ad_indicator, free_baggage_allowance, fast_track } : LegConditional))
  with
  | .error e => .error e
  | .ok (individual_use_data, c) =>
      .ok { c with
        airline_individual_use :=
          if individual_use_data.length > 0 then some (String.mk individual_use_data) else none }

/-- Assembles a `Leg` from its mandatory and conditional parts. -/
def mkLeg (m : LegMandatory) (c : LegConditional) : Leg :=
  { operating_carrier_pnr_code := m.operating_carrier_pnr_code,
    from_city_airport_code := m.from_city_airport_code,
    to_city_airport_code := m.to_city_airport_code,
    operating_carrier_designator := m.operating_carrier_designator,
    flight_number := m.flight_number,
    date_of_flight := m.date_of_flight,
    compartment_code := m.compartment_code,
    seat_number := m.seat_number,
    check_in_sequence_number := m.check_in_sequence_number,
    passenger_status := m.passenger_status,
    airline_numeric_code := c.airline_numeric_code,
    document_form_serial_number := c.document_form_serial_number,
    selectee_indicator := c.selectee_indicator,
    international_document_verification := c.international_document_verification,
    marketing_carrier_designator := c.marketing_carrier_designator,
    frequent_flyer_airline_designator := c.frequent_flyer_airline_designator,
    frequent_flyer_number := c.frequent_flyer_number,
    id_ad_indicator := c.id_ad_indicator,
    free_baggage_allowance := c.free_baggage_allowance,
    fast_track := c.fast_track,
    airline_individual_use := c.airline_individual_use }

/-- `leg`: one flight leg; pass-level conditional metadata is parsed (and
returned) only for the first leg. -/
def leg (i : List Char) (is_first_leg : Bool) : IR (Leg × Option ConditionalMetadata) :=
  irBind (leg_mandatory i) fun i10 mand =>
  irBind (variable_size_field_data .fieldSizeOfVariableSizeField i10) fun remainder cid =>
  irBind
    (if is_first_leg then
      irBind (conditional_metadata cid) fun cid' md => .ok (cid', some md)
    else .ok (cid, none)) fun cid' md =>
  match leg_conditional cid' with
  | .error e => .error e
  | .ok c => .ok (remainder, (mkLeg mand c, md))

/-- `security_data`: the optional trailing security section. -/
def security_data (i : List Char) : IR SecurityData :=
  if i.length = 0 then .ok (i, {})
  else
    irBind (withContext FieldId.beginningOfSecurityData.name i (pChar '^' i)) fun i1 _ =>
    irBind (character_field .typeOfSecurityData i1) fun i2 type_of_security_data =>
    irBind (variable_size_field_data .lengthOfSecurityData i2) fun i3 payload =>
    .ok (i3,
      { type_of_security_data := some type_of_security_data,
        security_data := if payload.length > 0 then some (String.mk payload) else none })

/-- The `for leg_index in 0 .. number_of_legs_encoded` loop of `bcbp`:
`idx` is the index of the next leg, `n` the number of legs still to read.
Metadata returned by a leg (only ever the first) overwrites the default. -/
def legs_loop : Nat → Nat → List Char → List Leg → ConditionalMetadata →
    Except NomErr (List Char × List Leg × ConditionalMetadata)
  | 0, _, i, legs, metadata => .ok (i, legs, metadata)
  | n + 1, idx, i, legs, metadata =>
    match leg i (idx == 0) with
    | .error e => .error e
    | .ok (next, (current, md)) =>
        legs_loop n (idx + 1) next (legs ++ [current]) (md.getD metadata)

/-- `bcbp`: the whole boarding-pass grammar. -/
def bcbp (i : List Char) : IR Bcbp :=
  irBind (format_code_m i) fun i1 _ =>
  irBind (number_of_legs i1) fun i2 number_of_legs_encoded =>
  irBind (string_field .passengerName i2) fun i3 passenger_name =>
  irBind (character_field .electronicTicketIndicator i3) fun i4 electronic_ticket_indicator =>
  match legs_loop number_of_legs_encoded 0 i4 [] default with
  | .error e => .error e
  | .ok (i5, legs, metadata) =>
    match security_data i5 with
    | .error e => .error e
    | .ok (i6, sec) =>
        .ok (i6, { passenger_name, electronic_ticket_indicator, metadata, legs,
                   security_data := sec })

/-- The public error type of the nom-based decoder, as used by `from_str`.
`ParseFailed` carries the verbose trace in place of the `convert_error`
string rendering. -/
inductive Error where
  | invalidCharacters
  | unsupportedFormat
  | unexpectedEndOfInput
  | parseFailed (e : Trace)
  | trailingCharacters
deriving DecidableEq

/-- `from_str`: ASCII check, format sanity check, full parse, error
mapping, trailing-characters check. -/
def from_str (input : List Char) : Except Error Bcbp :=
  if ¬ input.all asciiChar then .error .invalidCharacters
  else
    match format_code_m input with
    | .error _ => .error .unsupportedFormat
    | .ok _ =>
      match bcbp input with
      | .error .incomplete => .error .unexpectedEndOfInput
      | .error (.error e) => .error (.parseFailed e)
      | .error (.failure e) => .error (.parseFailed e)
      | .ok (remainder, boarding_pass) =>
          if remainder.length > 0 then .error .trailingCharacters
          else .ok boarding_pass

end DE

namespace PR

/-!
Embedding of `src/parser.rs`, the scanner-based decoder.

`src/parser.rs` calls a field-oriented `Scanner` API (`scan_field`,
`scan_field_list`, `scan_field_len`, `remaining_len`) that is not present
in `src/scanner.rs` (which only offers character-set primitives); those
four operations are modelled from the spec, §4.2 (read exactly the field's
length, all-or-nothing; strict-mode character-class validation exempting
all-blank values; `carve_section` returning a bounded sub-scanner and
advancing the parent unconditionally).  A scanner is represented by its
remaining input, a `List Char`; operations return the value together with
the scanner after the read.
-/

/-- `scanner.rs` `ScannerError`.  The `value`/`set` payloads of
`InvalidCharacter` are omitted: no claim inspects them. -/
inductive ScannerError where
  | fieldLongerThanRemainingInput
  | invalidCharacter
  | numericLiteralOutOfRange
deriving DecidableEq

/-- Modelled from the spec: `scan_field(field, strict)` reads exactly
`field.len` characters (failing with no partial advance if fewer remain)
and, in strict mode, validates the value against the field's catalog
character class unless the value is entirely blank. -/
def scan_field (f : FieldId) (strict : Bool) (s : List Char) :
    Except ScannerError (String × List Char) :=
  if s.length < f.len then .error .fieldLongerThanRemainingInput
  else if strict && !((s.take f.len).all (· = ' '))
      && !(f.data_format.check (s.take f.len)) then
    .error .invalidCharacter
  else .ok (String.mk (s.take f.len), s.drop f.len)

/-- Modelled from the spec: `scan_field_len(field, length, strict)` is
`scan_field` with an explicit length (used for the variable-length
airline-individual-use field). -/
def scan_field_len (f : FieldId) (length : Nat) (strict : Bool) (s : List Char) :
    Except ScannerError (String × List Char) :=
  if s.length < length then .error .fieldLongerThanRemainingInput
  else if strict && !((s.take length).all (· = ' '))
      && !(f.data_format.check (s.take length)) then
    .error .invalidCharacter
  else .ok (String.mk (s.take length), s.drop length)

/-- Modelled from the spec: `scan_field_list(length)` (`carve_section`)
returns a sub-scanner over exactly the next `length` characters and the
parent advanced past all of them unconditionally; it fails when fewer than
`length` characters remain. -/
def scan_field_list (length : Nat) (s : List Char) :
    Except ScannerError (List Char × List Char) :=
  if s.length < length then .error .fieldLongerThanRemainingInput
  else .ok (s.take length, s.drop length)

/-- `BcbpParserError` of `src/parser.rs`. -/
inductive BcbpParserError where
  | invalidCharacters
  | tooShort
  | missingFormatSpecifier
  | unsupportedFormat (found : Char)
  | noLegs
  | unableToReadField (field : FieldId) (reason : ScannerError)
  | invalidStartOfVersionNumber
  | variableLengthFieldTooLong
  | invalidConditionalItemList
deriving DecidableEq

/-- A flight leg of `src/parser.rs`: a map from fields to raw values,
embedded as the association list in insertion order. -/
structure Leg where
  fields : List (FieldId × String)
deriving DecidableEq

/-- The boarding pass of `src/parser.rs`. -/
structure Bcbp where
  unique_fields : List (FieldId × String)
  legs : List Leg
deriving DecidableEq

/-- `collect_required_fields`: scans every listed field in order; any
scanner failure aborts with `UnableToReadField`. -/
def collect_required_fields (strict : Bool) (fields : List FieldId) (s : List Char) :
    Except BcbpParserError (List (FieldId × String) × List Char) :=
  match fields with
  | [] => .ok ([], s)
  | f :: rest =>
    match scan_field f strict s with
    | .error e => .error (.unableToReadField f e)
    | .ok (value, s') =>
      match collect_required_fields strict rest s' with
      | .error e => .error e
      | .ok (scanned, s'') => .ok ((f, value) :: scanned, s'')

/-- `collect_optional_fields`: scans listed fields until the scanner is
exhausted.  Zero remaining characters before a field stop the scan
successfully; a nonzero remainder shorter than the next field's length is
`InvalidConditionalItemList`. -/
def collect_optional_fields (strict : Bool) (fields : List FieldId) (s : List Char) :
    Except BcbpParserError (List (FieldId × String) × List Char) :=
  match fields with
  | [] => .ok ([], s)
  | f :: rest =>
    if s.length = 0 then .ok ([], s)
    else if s.length < f.len then .error .invalidConditionalItemList
    else
      match scan_field f strict s with
      | .error e => .error (.unableToReadField f e)
      | .ok (value, s') =>
        match collect_optional_fields strict rest s' with
        | .error e => .error e
        | .ok (scanned, s'') => .ok ((f, value) :: scanned, s'')

/-- The ten mandatory per-leg fields, in wire order. -/
def mandatory_leg_fields : List FieldId :=
  [.operatingCarrierPnrCode, .fromCityAirportCode, .toCityAirportCode,
   .operatingCarrierDesignator, .flightNumber, .dateOfFlight,
   .compartmentCode, .seatNumber, .checkInSequenceNumber, .passengerStatus]

/-- The unique (pass-level) conditional fields, in catalog order. -/
def unique_conditional_fields : List FieldId :=
  [.passengerDescription, .sourceOfCheckIn, .sourceOfBoardingPassIssuance,
   .dateOfIssueOfBoardingPass, .documentType,
   .airlineDesignatorOfBoardingPassIssuer, .baggageTagLicensePlateNumbers,
   .firstNonConsecutiveBaggageTagLicensePlateNumber,
   .secondNonConsecutiveBaggageTagLicensePlateNumber]

/-- The repeated (per-leg) conditional fields, in catalog order. -/
def repeated_conditional_fields : List FieldId :=
  [.airlineNumericCode, .documentFormSerialNumber, .selecteeIndicator,
   .internationalDocumentVerification, .marketingCarrierDesignator,
   .frequentFlyerAirlineDesignator, .frequentFlyerNumber, .idAdIndicator,
   .freeBaggageAllowance, .fastTrack]

/-- First-leg part of the conditional section: the `>` marker, the version
number (scanned, result discarded), and the unique structured message. -/
def first_leg_unique (strict : Bool) (sub : List Char) :
    Except BcbpParserError (List (FieldId × String) × List Char) :=
  match scan_field .beginningOfVersionNumber true sub with
  | .error e => .error (.unableToReadField .beginningOfVersionNumber e)
  | .ok (marker, sub1) =>
    if marker ≠ ">" then .error .invalidStartOfVersionNumber
    else
      let sub2 := match scan_field .versionNumber true sub1 with
        | .ok (_, s') => s'
        | .error _ => sub1
      match scan_field .fieldSizeOfStructuredMessageUnique true sub2 with
      | .error e => .error (.unableToReadField .fieldSizeOfStructuredMessageUnique e)
      | .ok (uLenStr, sub3) =>
        let uLen := (from_str_radix 16 uLenStr.data).getD 0
        if 0 < uLen then
          match scan_field_list uLen sub3 with
          | .error _ => .error .variableLengthFieldTooLong
          | .ok (usub, sub4) =>
            match collect_optional_fields strict unique_conditional_fields usub with
            | .error e => .error e
            | .ok (fields, _) => .ok (fields, sub4)
        else .ok ([], sub3)

/-- Tail of the conditional section, common to all legs: the repeated
structured message and the airline-individual-use remainder. -/
def leg_conditional_tail (strict : Bool) (sub : List Char) :
    Except BcbpParserError (List (FieldId × String)) :=
  match scan_field .fieldSizeOfStructuredMessageRepeated true sub with
  | .error e => .error (.unableToReadField .fieldSizeOfStructuredMessageRepeated e)
  | .ok (rLenStr, sub1) =>
    let rLen := (from_str_radix 16 rLenStr.data).getD 0
    match
      (if 0 < rLen then
        match scan_field_list rLen sub1 with
        | .error _ => .error .variableLengthFieldTooLong
        | .ok (rsub, sub2) =>
          match collect_optional_fields strict repeated_conditional_fields rsub with
          | .error e => .error e
          | .ok (fields, _) => .ok (fields, sub2)
      else (.ok ([], sub1) :
        Except BcbpParserError (List (FieldId × String) × List Char)))
    with
    | .error e => .error e
    | .ok (fields, sub2) =>
      if 0 < sub2.length then
        match scan_field_len .airlineIndividualUse sub2.length strict sub2 with
        | .error e => .error (.unableToReadField .airlineIndividualUse e)
        | .ok (value, _) => .ok (fields ++ [(.airlineIndividualUse, value)])
      else .ok fields

/-- One iteration of the leg loop of `Parser::parse`: the ten mandatory
fields, the 2-hex-digit conditional-section size, and (when the size is
nonzero) the carved conditional section.  Returns the leg, the unique
pass-level fields collected from a first leg, and the advanced scanner. -/
def parse_leg (strict : Bool) (is_first : Bool) (s : List Char) :
    Except BcbpParserError (Leg × List (FieldId × String) × List Char) :=
  match collect_required_fields strict mandatory_leg_fields s with
  | .error e => .error e
  | .ok (legFields, s1) =>
    match scan_field .fieldSizeOfVariableSizeField true s1 with
    | .error e => .error (.unableToReadField .fieldSizeOfVariableSizeField e)
    | .ok (lenStr, s2) =>
      let condLen := (from_str_radix 16 lenStr.data).getD 0
      if 0 < condLen then
        match scan_field_list condLen s2 with
        | .error _ => .error .variableLengthFieldTooLong
        | .ok (sub, s3) =>
          match
            (if is_first then first_leg_unique strict sub
             else (.ok ([], sub) :
               Except BcbpParserError (List (FieldId × String) × List Char)))
          with
          | .error e => .error e
          | .ok (uniqueExtra, sub') =>
            match leg_conditional_tail strict sub' with
            | .error e => .error e
            | .ok tailFields => .ok (⟨legFields ++ tailFields⟩, uniqueExtra, s3)
      else .ok (⟨legFields⟩, [], s2)

/-- The `for leg_index in 0 .. legs_encoded` loop of `Parser::parse`. -/
def legs_loop (strict : Bool) : Nat → Nat → List Char → List Leg →
    List (FieldId × String) →
    Except BcbpParserError (List Leg × List (FieldId × String) × List Char)
  | 0, _, s, legs, extras => .ok (legs, extras, s)
  | n + 1, idx, s, legs, extras =>
    match parse_leg strict (idx == 0) s with
    | .error e => .error e
    | .ok (current, uniqueExtra, s') =>
        legs_loop strict n (idx + 1) s' (legs ++ [current]) (extras ++ uniqueExtra)

/-- `Parser::parse`: format code, leg count, header fields, leg loop. -/
def parse_inner (strict : Bool) (s : List Char) : Except BcbpParserError Bcbp :=
  match scan_field .formatCode true s with
  | .error _ => .error .missingFormatSpecifier
  | .ok (format_code, s1) =>
    if format_code ≠ "M" then
      .error (.unsupportedFormat (format_code.data.headD ' '))
    else
      match scan_field .numberOfLegsEncoded true s1 with
      | .error e => .error (.unableToReadField .numberOfLegsEncoded e)
      | .ok (nStr, s2) =>
        let legs_encoded := (from_str_radix 10 nStr.data).getD 0
        if legs_encoded = 0 then .error .noLegs
        else
          match collect_required_fields strict [.passengerName, .electronicTicketIndicator] s2 with
          | .error e => .error e
          | .ok (headerFields, s3) =>
            match legs_loop strict legs_encoded 0 s3 [] [] with
            | .error e => .error e
            | .ok (legs, extras, _) =>
                .ok { unique_fields := headerFields ++ extras, legs }

/-- The minimum acceptable BCBP length: the header fields. -/
def MINIMUM_LENGTH : Nat :=
  FieldId.formatCode.len + FieldId.numberOfLegsEncoded.len
    + FieldId.passengerName.len + FieldId.electronicTicketIndicator.len

/-- The public `parse` entry point of `src/parser.rs`: ASCII check,
minimum-length check, then `Parser::parse`. -/
def parse (input : List Char) (strict : Bool) : Except BcbpParserError Bcbp :=
  if ¬ input.all asciiChar then .error .invalidCharacters
  else if input.length < MINIMUM_LENGTH then .error .tooShort
  else parse_inner strict input

end PR

/-!
Concrete inputs used by the theorems below.
-/

/-- IATA Resolution 792 Attachment B, Example 1: the standard's worked
single-leg example with mandatory items and security data. -/
def EXAMPLE_1 : List Char :=
  "M1DESMARAIS/LUC       EABC123 YULFRAAC 0834 326J001A0025 100^164GIWVC5EH7JNT684FVNJ91W2QA4DVN5J8K4F0L0GEQ3DF5TGBN8709HKT5D3DW3GBHFCVHMY7J5T6HFR41W2QA4DVN5J8K4F0L0GE".data

/-- The worked example truncated eleven characters in, partway through the
passenger-name field. -/
def TRUNCATED_NAME : List Char := "M1DESMARAIS".data

/-- A boarding pass declaring zero legs: `M0`, a passenger name, and the
electronic-ticket indicator, with nothing after the header. -/
def ZERO_LEGS : List Char := "M0DESMARAIS/LUC       E".data

/-- A first-leg input whose 2-character conditional section starts with
`X` instead of `>`. -/
def LEG_BAD_MARKER : List Char := "ABC123 YULFRAAC 0834 326J001A0025 102XX".data

/-- A first-leg input declaring a 5-character conditional section with
only 2 characters remaining. -/
def LEG_SHORT_SECTION : List Char := "ABC123 YULFRAAC 0834 326J001A0025 105XX".data

/-- Decidable equality of `Except` results, for evaluating the decoders on
concrete inputs. -/
instance {ε α : Type} [DecidableEq ε] [DecidableEq α] : DecidableEq (Except ε α) := fun x y =>
  match x, y with
  | .ok a, .ok b =>
      if h : a = b then .isTrue (h ▸ rfl) else .isFalse (fun hc => h (Except.ok.inj hc))
  | .error a, .error b =>
      if h : a = b then .isTrue (h ▸ rfl) else .isFalse (fun hc => h (Except.error.inj hc))
  | .ok _, .error _ => .isFalse Except.noConfusion
  | .error _, .ok _ => .isFalse Except.noConfusion

/-- The record decoded from `EXAMPLE_1` by the nom-based decoder. -/
def EXAMPLE_1_PASS : DE.Bcbp :=
  { passenger_name := "DESMARAIS/LUC       ",
    electronic_ticket_indicator := 'E',
    metadata := {},
    legs := [{ operating_carrier_pnr_code := "ABC123 ",
               from_city_airport_code := "YUL",
               to_city_airport_code := "FRA",
               operating_carrier_designator := "AC ",
               flight_number := "0834 ",
               date_of_flight := "326",
               compartment_code := 'J',
               seat_number := "001A",
               check_in_sequence_number := "0025 ",
               passenger_status := '1' }],
    security_data := { type_of_security_data := some '1',
                       security_data := some (String.mk (EXAMPLE_1.drop 64)) } }

/-- The ten mandatory fields of the worked example's leg, as scanned by the
scanner-based decoder (raw, untrimmed values). -/
def LEG_FIELDS : List (FieldId × String) :=
  [(.operatingCarrierPnrCode, "ABC123 "), (.fromCityAirportCode, "YUL"),
   (.toCityAirportCode, "FRA"), (.operatingCarrierDesignator, "AC "),
   (.flightNumber, "0834 "), (.dateOfFlight, "326"),
   (.compartmentCode, "J"), (.seatNumber, "001A"),
   (.checkInSequenceNumber, "0025 "), (.passengerStatus, "1")]

/-- A bare leg (conditional-section size `00`) as a `DE.Leg`. -/
def LEG_PLAIN : List Char := "ABC123 YULFRAAC 0834 326J001A0025 100".data

/-- The record decoded from `LEG_PLAIN`. -/
def LEG_PLAIN_REC : DE.Leg :=
  { operating_carrier_pnr_code := "ABC123 ",
    from_city_airport_code := "YUL",
    to_city_airport_code := "FRA",
    operating_carrier_designator := "AC ",
    flight_number := "0834 ",
    date_of_flight := "326",
    compartment_code := 'J',
    seat_number := "001A",
    check_in_sequence_number := "0025 ",
    passenger_status := '1' }

/-- The record parsed from `EXAMPLE_1` by the scanner-based decoder. -/
def PR_EXAMPLE_1_PASS : PR.Bcbp :=
  { unique_fields := [(.passengerName, "DESMARAIS/LUC       "),
                      (.electronicTicketIndicator, "E")],
    legs := [⟨LEG_FIELDS⟩] }

/-!
Helper lemmas shared by the claim theorems.
-/

theorem irBind_eq_ok {α β : Type} {r : DE.IR α} {f : List Char → α → DE.IR β}
    {z : List Char × β} (h : DE.irBind r f = .ok z) :
    ∃ i a, r = .ok (i, a) ∧ f i a = .ok z := by
  cases r with
  | error e => simp [DE.irBind] at h
  | ok p =>
    obtain ⟨i, a⟩ := p
    exact ⟨i, a, rfl, h⟩

theorem bcbp_ok_format {i : List Char} {z : List Char × DE.Bcbp}
    (h : DE.bcbp i = .ok z) : ∃ w, DE.format_code_m i = .ok w := by
  unfold DE.bcbp at h
  cases hf : DE.format_code_m i with
  | error e => rw [hf] at h; simp [DE.irBind] at h
  | ok w => exact ⟨w, rfl⟩

theorem leg_not_first_md {i r : List Char} {lg : DE.Leg}
    {m : Option DE.ConditionalMetadata}
    (h : DE.leg i false = .ok (r, (lg, m))) : m = none := by
  unfold DE.leg at h
  obtain ⟨i10, mand, h1, h⟩ := irBind_eq_ok h
  obtain ⟨rem, cid, h2, h⟩ := irBind_eq_ok h
  simp only [Bool.false_eq_true, if_false] at h
  obtain ⟨cid', md, h3, h⟩ := irBind_eq_ok h
  injection h3 with h3'
  injection h3' with hcid hmd
  subst hcid
  subst hmd
  cases hlc : DE.leg_conditional cid with
  | error e => rw [hlc] at h; simp at h
  | ok c =>
    rw [hlc] at h
    injection h with h'
    injection h' with hrem hpair
    injection hpair with hlg hm
    exact hm.symm

theorem legs_loop_md {k idx : Nat} {i : List Char} {legs : List DE.Leg}
    {md : DE.ConditionalMetadata}
    {out : List Char × List DE.Leg × DE.ConditionalMetadata}
    (hidx : 0 < idx) (h : DE.legs_loop k idx i legs md = .ok out) :
    out.2.2 = md := by
  induction k generalizing idx i legs md with
  | zero =>
    unfold DE.legs_loop at h
    cases h
    rfl
  | succ n ih =>
    unfold DE.legs_loop at h
    cases idx with
    | zero => exact absurd hidx (by simp)
    | succ m =>
      rw [show ((m + 1 : Nat) == 0) = false from rfl] at h
      split at h
      · exact absurd h (by simp)
      · next next current mopt heq =>
          have : mopt = none := leg_not_first_md heq
          subst this
          simp only [Option.getD_none] at h
          exact ih (show 0 < m + 1 + 1 by omega) h

/-- C1: decoding an ordered list of optional fields from a bounded
conditional section (`collect_optional_fields` in `src/parser.rs`): with
zero characters remaining before the next field the scan stops and
succeeds with that field and all later fields absent; with a nonzero
remainder smaller than the next field's length it fails with
`InvalidConditionalItemList`; and once the field list is exhausted any
remaining characters of the section are left untouched — no error and no
validation. -/
theorem C1_optional_field_list :
    (∀ (strict : Bool) (fields : List FieldId) (s : List Char),
        s.length = 0 →
        PR.collect_optional_fields strict fields s = .ok ([], s))
    ∧ (∀ (strict : Bool) (f : FieldId) (rest : List FieldId) (s : List Char),
        0 < s.length → s.length < f.len →
        PR.collect_optional_fields strict (f :: rest) s =
          .error .invalidConditionalItemList)
    ∧ (∀ (strict : Bool) (s : List Char),
        PR.collect_optional_fields strict [] s = .ok ([], s)) := by
  refine ⟨?_, ?_, ?_⟩
  · intro strict fields s h
    cases fields with
    | nil => rfl
    | cons f rest =>
      unfold PR.collect_optional_fields
      rw [if_pos h]
  · intro strict f rest s h1 h2
    unfold PR.collect_optional_fields
    rw [if_neg (by omega), if_pos h2]
  · intro strict s
    rfl

/-- Witness for C1 at concrete inputs: an empty section, a 2-character
section in front of the 4-character date-of-issue field, and an exhausted
field list with 3 characters left over. -/
theorem C1_optional_field_list_witness :
    PR.collect_optional_fields true
        [FieldId.passengerDescription, FieldId.sourceOfCheckIn] [] = .ok ([], [])
    ∧ PR.collect_optional_fields true [FieldId.dateOfIssueOfBoardingPass] ['6', '2'] =
        .error .invalidConditionalItemList
    ∧ PR.collect_optional_fields false [] ['Z', 'Z', 'Z'] = .ok ([], ['Z', 'Z', 'Z']) :=
  ⟨C1_optional_field_list.1 true _ [] rfl,
   C1_optional_field_list.2.1 true _ _ _ (by decide) (by decide),
   C1_optional_field_list.2.2 false _⟩

/-- C2 (amended): the standard's worked example decodes to the claimed
passenger name, e-ticket indicator, single leg and security section; the
security payload is the 100-character tail of the 164-character input
(declared length `0x64`). -/
theorem C2_worked_example :
    DE.from_str EXAMPLE_1 = .ok EXAMPLE_1_PASS
    ∧ EXAMPLE_1_PASS.security_data.security_data = some (String.mk (EXAMPLE_1.drop 64))
    ∧ (EXAMPLE_1.drop 64).length = 100
    ∧ EXAMPLE_1.length = 164 :=
  ⟨by decide, by decide, by decide, by decide⟩

/-- Counterexample to C2 as stated: at the worked example the decoded
security payload has 100 characters, so it is not the 102-character tail
of the input. -/
theorem C2_payload_not_102 :
    (DE.from_str EXAMPLE_1).toOption.map
        (fun b => b.security_data.security_data.map String.length) = some (some 100)
    ∧ ¬ (100 = 102) :=
  ⟨by decide, by decide⟩

/-- C5: evaluation of `from_str` (`src/de/parser.rs`) at an input starting
with `M1` and truncated partway through the passenger-name field.  The
result is `ParseFailed` — a verbose nom trace that does name the
`Passenger Name` context — and not `UnexpectedEndOfInput`: the nom
sub-parsers are the `complete` variants, which report exhausted input as
`Err::Error`, and `from_str` maps only the unreachable `Err::Incomplete`
to `UnexpectedEndOfInput`. -/
theorem C5_truncated_name_parse_failed :
    DE.from_str TRUNCATED_NAME =
      .error (.parseFailed
        [("DESMARAIS".data, .nomKind .eof),
         ("DESMARAIS".data, .context "Passenger Name")])
    ∧ DE.from_str TRUNCATED_NAME ≠ .error .unexpectedEndOfInput
    ∧ TRUNCATED_NAME.length < PR.MINIMUM_LENGTH :=
  ⟨by decide, by decide, by decide⟩

/-- C8: an input with any non-ASCII character is rejected as
`InvalidCharacters` by both decoders, before any structural parsing —
hence this error takes precedence over every other decode error. -/
theorem C8_invalid_characters :
    ∀ (input : List Char), ¬ input.all asciiChar = true →
      DE.from_str input = .error .invalidCharacters
      ∧ ∀ (strict : Bool), PR.parse input strict = .error .invalidCharacters := by
  intro input h
  refine ⟨?_, fun strict => ?_⟩
  · unfold DE.from_str
    rw [if_pos h]
  · unfold PR.parse
    rw [if_pos h]

/-- Witness for C8 at the concrete input `"Mç"`. -/
theorem C8_invalid_characters_witness :
    DE.from_str "Mç".data = .error .invalidCharacters
    ∧ PR.parse "Mç".data true = .error .invalidCharacters :=
  ⟨(C8_invalid_characters "Mç".data (by decide)).1,
   (C8_invalid_characters "Mç".data (by decide)).2 true⟩

/-- C9 (amended): every nonempty all-ASCII input whose first character is
not `M` fails with `UnsupportedFormat`; the check is case-sensitive, so a
lowercase `m` is rejected rather than normalized. -/
theorem C9_unsupported_format :
    ∀ (c : Char) (rest : List Char),
      ((c :: rest).all asciiChar) = true → c ≠ 'M' →
      DE.from_str (c :: rest) = .error .unsupportedFormat := by
  intro c rest hascii hc
  unfold DE.from_str
  rw [if_neg (by simp [hascii])]
  simp [DE.format_code_m, DE.withContext, DE.pChar, hc]

/-- Counterexample to C9 as stated: `"mç"` begins with a character other
than `M`, yet decoding fails with `InvalidCharacters` (the ASCII check
runs first), not `UnsupportedFormat`. -/
theorem C9_counterexample :
    DE.from_str "mç".data = .error .invalidCharacters
    ∧ DE.Error.invalidCharacters ≠ DE.Error.unsupportedFormat :=
  ⟨by decide, by decide⟩

/-- Witness for C9 at the test suite's lowercase-`m` boarding pass. -/
theorem C9_unsupported_format_witness :
    DE.from_str "m1DESMARAIS/LUC       EABC123 YULFRAAC 0834 326J001A0025 100^100".data =
      .error .unsupportedFormat :=
  C9_unsupported_format 'm'
    "1DESMARAIS/LUC       EABC123 YULFRAAC 0834 326J001A0025 100^100".data
    (by decide) (by decide)

/-- C10: pass-level conditional metadata is produced only by the first
leg: a leg parsed with `is_first_leg = false` always reports `none`
metadata, and the leg loop started at any index ≥ 1 leaves the metadata
accumulator untouched.  (`Leg` records have no metadata fields at all, so
metadata can never be attached to a leg.) -/
theorem C10_metadata_first_leg_only :
    (∀ (i r : List Char) (lg : DE.Leg) (m : Option DE.ConditionalMetadata),
        DE.leg i false = .ok (r, (lg, m)) → m = none)
    ∧ (∀ (k idx : Nat) (i : List Char) (legs : List DE.Leg)
        (md : DE.ConditionalMetadata)
        (out : List Char × List DE.Leg × DE.ConditionalMetadata),
        0 < idx → DE.legs_loop k idx i legs md = .ok out → out.2.2 = md) :=
  ⟨fun _ _ _ _ h => leg_not_first_md h,
   fun _ _ _ _ _ _ hidx h => legs_loop_md hidx h⟩

/-- Witness for C10: a concrete non-first leg yields no metadata, and one
loop step from index 1 preserves the metadata accumulator. -/
theorem C10_metadata_first_leg_only_witness :
    (none : Option DE.ConditionalMetadata) = none
    ∧ (((([], [LEG_PLAIN_REC], {}) :
        List Char × List DE.Leg × DE.ConditionalMetadata)).2.2 =
        ({} : DE.ConditionalMetadata)) :=
  ⟨C10_metadata_first_leg_only.1 LEG_PLAIN [] LEG_PLAIN_REC none (by decide),
   C10_metadata_first_leg_only.2 1 1 LEG_PLAIN [] {} ([], [LEG_PLAIN_REC], {})
     (by decide) (by decide)⟩

/-- C4: whenever the full grammar (`bcbp`) succeeds while leaving
unconsumed input, `from_str` fails with `TrailingCharacters`. -/
theorem C4_trailing_characters :
    ∀ (input rem : List Char) (pass : DE.Bcbp),
      input.all asciiChar = true →
      DE.bcbp input = .ok (rem, pass) →
      rem ≠ [] →
      DE.from_str input = .error .trailingCharacters := by
  intro input rem pass hascii hb hrem
  obtain ⟨w, hw⟩ := bcbp_ok_format hb
  unfold DE.from_str
  rw [if_neg (by simp [hascii])]
  rw [hw, hb]
  show (if rem.length > 0 then Except.error DE.Error.trailingCharacters
        else Except.ok pass) = Except.error DE.Error.trailingCharacters
  rw [if_pos (List.length_pos.mpr hrem)]

/-- Witness for C4: the worked example with one extra `+` appended parses
as a full boarding pass with `"+"` left over, and decoding it fails with
`TrailingCharacters`. -/
theorem C4_trailing_characters_witness :
    DE.from_str (EXAMPLE_1 ++ ['+']) = .error .trailingCharacters :=
  C4_trailing_characters (EXAMPLE_1 ++ ['+']) ['+'] EXAMPLE_1_PASS
    (by decide) (by decide) (by decide)

/-- C6: in `Parser::parse` (`src/parser.rs`), when the first leg's
conditional section is nonempty (declared hex size positive and carvable)
and its first character is ASCII but not `>`, parsing the first leg fails
with `InvalidStartOfVersionNumber`.  (The public `parse` rejects non-ASCII
input before this point, so the ASCII hypothesis is free.) -/
theorem C6_invalid_start_of_version_number :
    ∀ (strict : Bool) (s : List Char) (fields : List (FieldId × String))
      (s1 : List Char) (lenStr : String) (s2 : List Char) (c : Char),
      PR.collect_required_fields strict PR.mandatory_leg_fields s = .ok (fields, s1) →
      PR.scan_field .fieldSizeOfVariableSizeField true s1 = .ok (lenStr, s2) →
      0 < (from_str_radix 16 lenStr.data).getD 0 →
      (from_str_radix 16 lenStr.data).getD 0 ≤ s2.length →
      s2.head? = some c → asciiChar c = true → c ≠ '>' →
      PR.parse_leg strict true s = .error .invalidStartOfVersionNumber := by
  intro strict s fields s1 lenStr s2 c h1 h2 hpos hle hhead hascii hc
  have hlist : PR.scan_field_list ((from_str_radix 16 lenStr.data).getD 0) s2 =
      .ok (s2.take ((from_str_radix 16 lenStr.data).getD 0),
           s2.drop ((from_str_radix 16 lenStr.data).getD 0)) := by
    unfold PR.scan_field_list
    rw [if_neg (by omega)]
  have hflu : PR.first_leg_unique strict
      (s2.take ((from_str_radix 16 lenStr.data).getD 0)) =
      .error .invalidStartOfVersionNumber := by
    cases s2 with
    | nil => simp at hhead
    | cons c0 t =>
      obtain rfl : c0 = c := by simpa using hhead
      obtain ⟨L', hL'⟩ : ∃ L', (from_str_radix 16 lenStr.data).getD 0 = L' + 1 :=
        ⟨(from_str_radix 16 lenStr.data).getD 0 - 1, by omega⟩
      rw [hL', List.take_succ_cons]
      have hsf : PR.scan_field .beginningOfVersionNumber true (c0 :: t.take L') =
          .ok (String.mk [c0], t.take L') := by
        unfold PR.scan_field
        rw [if_neg (by simp [FieldId.len])]
        simp [FieldId.data_format, FieldId.len, DataFormat.check, DataFormat.checkChar, hascii]
      have hmark : String.mk [c0] ≠ ">" := by
        intro hEq
        have hdata : [c0] = ['>'] := congrArg String.data hEq
        injection hdata with hd _
        exact hc hd
      unfold PR.first_leg_unique
      rw [hsf]
      simp [hmark]
  simp only [PR.parse_leg, h1, h2]
  rw [if_pos hpos, hlist]
  simp [hflu]

/-- Witness for C6: a concrete first leg whose 2-character conditional
section starts with `X`. -/
theorem C6_invalid_start_witness :
    PR.parse_leg false true LEG_BAD_MARKER = .error .invalidStartOfVersionNumber :=
  C6_invalid_start_of_version_number false LEG_BAD_MARKER LEG_FIELDS
    "02XX".data "02" "XX".data 'X'
    (by decide) (by decide) (by decide) (by decide) (by decide) (by decide) (by decide)

/-- C7: carving a conditional sub-section.  In `variable_size_field_data`
(`src/de/parser.rs`), a declared 2-hex-digit length exceeding the
remaining input is an error (never a silent truncation), and a successful
carve returns the parent advanced past all declared characters
unconditionally, with the section being exactly those characters.  The
modelled `scan_field_list` (`carve_section`) behaves the same way, and
`parse_leg` (`src/parser.rs`) maps its failure to
`VariableLengthFieldTooLong` (the `SectionTooLong` of the spec). -/
theorem C7_carve_section :
    (∀ (f : FieldId) (i rem : List Char) (len : Nat),
        DE.withContext f.name i (DE.hex_byte_literal 2 i) = .ok (rem, len) →
        rem.length < len →
        DE.variable_size_field_data f i = .error (.error [(rem, .nomKind .eof)]))
    ∧ (∀ (f : FieldId) (i rem : List Char) (len : Nat),
        DE.withContext f.name i (DE.hex_byte_literal 2 i) = .ok (rem, len) →
        len ≤ rem.length →
        DE.variable_size_field_data f i = .ok (rem.drop len, rem.take len))
    ∧ (∀ (n : Nat) (s : List Char),
        (s.length < n →
          PR.scan_field_list n s = .error .fieldLongerThanRemainingInput)
        ∧ (n ≤ s.length →
          PR.scan_field_list n s = .ok (s.take n, s.drop n)))
    ∧ (∀ (strict is_first : Bool) (s : List Char) (fields : List (FieldId × String))
        (s1 : List Char) (lenStr : String) (s2 : List Char),
        PR.collect_required_fields strict PR.mandatory_leg_fields s = .ok (fields, s1) →
        PR.scan_field .fieldSizeOfVariableSizeField true s1 = .ok (lenStr, s2) →
        s2.length < (from_str_radix 16 lenStr.data).getD 0 →
        PR.parse_leg strict is_first s = .error .variableLengthFieldTooLong) := by
  refine ⟨?_, ?_, ?_, ?_⟩
  · intro f i rem len hhex hlt
    unfold DE.variable_size_field_data
    rw [hhex]
    simp only [DE.irBind]
    rw [if_neg (by omega)]
    unfold DE.pTake
    rw [if_neg (by omega)]
  · intro f i rem len hhex hle
    unfold DE.variable_size_field_data
    rw [hhex]
    simp only [DE.irBind]
    by_cases h0 : len = 0
    · subst h0
      simp
    · rw [if_neg h0]
      unfold DE.pTake
      rw [if_pos hle]
  · intro n s
    constructor
    · intro h
      unfold PR.scan_field_list
      rw [if_pos h]
    · intro h
      unfold PR.scan_field_list
      rw [if_neg (by omega)]
  · intro strict is_first s fields s1 lenStr s2 h1 h2 hlt
    have hfail : PR.scan_field_list ((from_str_radix 16 lenStr.data).getD 0) s2 =
        .error .fieldLongerThanRemainingInput := by
      unfold PR.scan_field_list
      rw [if_pos hlt]
    simp only [PR.parse_leg, h1, h2]
    rw [if_pos (by omega)]
    simp [hfail]

/-- Witness for C7 at concrete sections. -/
theorem C7_carve_section_witness :
    DE.variable_size_field_data .lengthOfSecurityData "05ABC".data =
      .error (.error [("ABC".data, .nomKind .eof)])
    ∧ DE.variable_size_field_data .lengthOfSecurityData "02ABCD".data =
      .ok ("CD".data, "AB".data)
    ∧ PR.scan_field_list 3 "AB".data = .error .fieldLongerThanRemainingInput
    ∧ PR.scan_field_list 2 "ABCD".data = .ok ("AB".data, "CD".data)
    ∧ PR.parse_leg false true LEG_SHORT_SECTION = .error .variableLengthFieldTooLong :=
  ⟨C7_carve_section.1 .lengthOfSecurityData "05ABC".data "ABC".data 5 (by decide) (by decide),
   C7_carve_section.2.1 .lengthOfSecurityData "02ABCD".data "ABCD".data 2 (by decide) (by decide),
   (C7_carve_section.2.2.1 3 "AB".data).1 (by decide),
   (C7_carve_section.2.2.1 2 "ABCD".data).2 (by decide),
   C7_carve_section.2.2.2 false true LEG_SHORT_SECTION LEG_FIELDS
     "05XX".data "05" "XX".data (by decide) (by decide) (by decide)⟩

/-- Inversion of a successful `scan_field`: value and rest. -/
theorem scan_field_ok_parts {f : FieldId} {b : Bool} {s : List Char} {v : String}
    {s' : List Char} (h : PR.scan_field f b s = .ok (v, s')) :
    f.len ≤ s.length ∧ v = String.mk (s.take f.len) ∧ s' = s.drop f.len := by
  unfold PR.scan_field at h
  split at h
  · exact absurd h (by simp)
  · next hlen =>
    split at h
    · exact absurd h (by simp)
    · injection h with h'
      injection h' with hv hs
      exact ⟨by omega, hv.symm, hs.symm⟩

/-- A strict `scan_field` success implies blank-or-valid content. -/
theorem scan_field_ok_valid {f : FieldId} {s : List Char} {v : String}
    {s' : List Char} (h : PR.scan_field f true s = .ok (v, s')) :
    (s.take f.len).all (· = ' ') = true
    ∨ f.data_format.check (s.take f.len) = true := by
  unfold PR.scan_field at h
  split at h
  · exact absurd h (by simp)
  · split at h
    · exact absurd h (by simp)
    · next hcond =>
      simp only [Bool.true_and, Bool.and_eq_true, Bool.not_eq_true'] at hcond
      rcases Decidable.not_and_iff_or_not.mp hcond with h1 | h2
      · exact .inl (by simpa using h1)
      · exact .inr (by simpa using h2)

/-- The scanner-based leg loop returns exactly as many legs as it was asked. -/
theorem legs_loop_length {strict : Bool} {n idx : Nat} {s : List Char}
    {legs : List PR.Leg} {extras : List (FieldId × String)}
    {r : List PR.Leg × List (FieldId × String) × List Char}
    (h : PR.legs_loop strict n idx s legs extras = .ok r) :
    r.1.length = legs.length + n := by
  induction n generalizing idx s legs extras with
  | zero =>
    unfold PR.legs_loop at h
    cases h
    rfl
  | succ m ih =>
    unfold PR.legs_loop at h
    split at h
    · exact absurd h (by simp)
    · have := ih h
      simp only [List.length_append, List.length_cons, List.length_nil] at this
      omega

/-- Radix-10 parsing of a single decimal digit. -/
theorem from_str_radix_digit {c : Char} (h : c.isDigit = true) :
    from_str_radix 10 [c] = some (c.toNat - '0'.toNat) := by
  have hplus : c ≠ '+' := by
    intro heq
    rw [heq] at h
    exact absurd h (by decide)
  have hbounds : 48 ≤ c.toNat ∧ c.toNat ≤ 57 := by
    have h' := h
    simp only [Char.isDigit, Bool.and_eq_true, decide_eq_true_eq] at h'
    exact h'
  have hds : (match ([c] : List Char) with | '+' :: rest => rest | _ => [c]) = [c] := by
    split
    · next rest heq =>
      injection heq with heq1 _
      exact absurd heq1 hplus
    · rfl
  simp only [from_str_radix, hds]
  rw [show (([c] : List Char).isEmpty) = false from rfl]
  simp only [Bool.false_eq_true, if_false, List.foldl, radixDigit, digitValue, h, if_true]
  rw [if_pos (show c.toNat - '0'.toNat < 10 by show c.toNat - 48 < 10; omega)]
  simp

/-- C3 (amended): in the scanner-based decoder (`src/parser.rs`), the leg
count is the single character after the format code, validated in strict
mode as a decimal digit; a declared count of zero fails with `NoLegs`;
and every successful parse returns exactly the declared number of legs. -/
theorem C3_leg_count :
    (∀ (strict : Bool) (rest : List Char),
        (('M' :: '0' :: rest).all asciiChar) = true → 21 ≤ rest.length →
        PR.parse ('M' :: '0' :: rest) strict = .error .noLegs)
    ∧ (∀ (strict : Bool) (input : List Char) (pass : PR.Bcbp),
        PR.parse input strict = .ok pass →
        ∃ c, input[1]? = some c ∧ c.isDigit = true
          ∧ pass.legs.length = c.toNat - '0'.toNat) := by
  constructor
  · intro strict rest hascii hlen
    unfold PR.parse
    rw [if_neg (by simp [hascii])]
    rw [if_neg (show ¬ (('M' :: '0' :: rest).length < PR.MINIMUM_LENGTH) by
      simp only [PR.MINIMUM_LENGTH, FieldId.len, List.length_cons]
      omega)]
    have hf : PR.scan_field .formatCode true ('M' :: '0' :: rest) =
        .ok ("M", '0' :: rest) := by
      unfold PR.scan_field
      simp only [FieldId.len, FieldId.data_format, List.length_cons,
        List.take_succ_cons, List.take_zero, List.drop_succ_cons, List.drop_zero]
      rw [if_neg (by omega)]
      rw [if_neg (by decide)]
    have hn : PR.scan_field .numberOfLegsEncoded true ('0' :: rest) =
        .ok ("0", rest) := by
      unfold PR.scan_field
      simp only [FieldId.len, FieldId.data_format, List.length_cons,
        List.take_succ_cons, List.take_zero, List.drop_succ_cons, List.drop_zero]
      rw [if_neg (by omega)]
      rw [if_neg (by decide)]
    simp [PR.parse_inner, hf, hn,
      show (from_str_radix 10 ("0" : String).data).getD 0 = 0 from by decide]
  · intro strict input pass h
    unfold PR.parse at h
    split at h
    · exact absurd h (by simp)
    split at h
    · exact absurd h (by simp)
    simp only [PR.parse_inner] at h
    split at h
    · exact absurd h (by simp)
    rename_i fstr s1 hf
    split at h
    · exact absurd h (by simp)
    split at h
    · exact absurd h (by simp)
    rename_i nStr s2 hn
    split at h
    · exact absurd h (by simp)
    rename_i hnz
    split at h
    · exact absurd h (by simp)
    rename_i headerFields s3 hh
    split at h
    · exact absurd h (by simp)
    rename_i legs extras s4 hl
    injection h with h'
    obtain ⟨hle1, hfstr, hs1⟩ := scan_field_ok_parts hf
    obtain ⟨hle2, hnstr, hs2⟩ := scan_field_ok_parts hn
    have hval := scan_field_ok_valid hn
    subst hs1
    cases hd : input.drop FieldId.formatCode.len with
    | nil =>
      rw [hd] at hle2
      simp [FieldId.len] at hle2
    | cons c t =>
      have hget : input[1]? = some c := by
        have hgd := (List.getElem?_drop input 1 0).symm
        rw [show input.drop 1 = input.drop FieldId.formatCode.len from rfl, hd] at hgd
        simpa using hgd
      rcases hval with hblank | hcheck
      · exfalso
        apply hnz
        rw [hd] at hblank
        simp [FieldId.len] at hblank
        rw [hnstr, hd]
        subst hblank
        show (from_str_radix 10 [' ']).getD 0 = 0
        decide
      · rw [hd] at hcheck
        simp [FieldId.data_format, DataFormat.check, DataFormat.checkChar, FieldId.len]
          at hcheck
        refine ⟨c, hget, hcheck, ?_⟩
        have hlen := legs_loop_length hl
        have hX : (from_str_radix 10 nStr.data).getD 0 = c.toNat - '0'.toNat := by
          rw [hnstr, hd]
          show (from_str_radix 10 [c]).getD 0 = _
          rw [from_str_radix_digit hcheck]
          rfl
        rw [← h']
        show legs.length = c.toNat - '0'.toNat
        rw [hlen, hX]
        simp

/-- Witness for C3: a zero-leg header fails with `NoLegs`, and the worked
example parses with exactly `'1' - '0' = 1` leg. -/
theorem C3_leg_count_witness :
    PR.parse ('M' :: '0' :: "DESMARAIS/LUC       E".data) true = .error .noLegs
    ∧ ∃ c, EXAMPLE_1[1]? = some c ∧ c.isDigit = true
        ∧ PR_EXAMPLE_1_PASS.legs.length = c.toNat - '0'.toNat :=
  ⟨C3_leg_count.1 true _ (by decide) (by decide),
   C3_leg_count.2 true EXAMPLE_1 PR_EXAMPLE_1_PASS (by decide)⟩

/-- Counterexample to C3 as stated: the nom-based decoder
(`src/de/parser.rs`) accepts a boarding pass declaring zero legs (no
`NoLegs` error exists there) and reads the leg count as an uppercase
hexadecimal digit (`A` parses as 10). -/
theorem C3_counterexample :
    DE.from_str ZERO_LEGS =
      .ok { passenger_name := "DESMARAIS/LUC       ",
            electronic_ticket_indicator := 'E',
            metadata := {}, legs := [], security_data := {} }
    ∧ DE.number_of_legs ['A'] = .ok ([], 10) :=
  ⟨by decide, by decide⟩
